import Mathlib

set_option allowUnsafeReducibility true
attribute [local semireducible] Rat.mul Rat.add Rat.sub Rat.inv Rat.div
attribute [local semireducible] Rat.ofScientific

/-!
Shallow embedding of the comic-reader bubble-extraction pipeline.

Numbers (JavaScript `number`) are modelled as rationals `ℚ`; machine
floating point is not modelled (all quantities compared in the theorems
are exact small rationals).  Strings are Lean `String`s (the texts in
question are ASCII).  Asynchronous network calls are modelled by an
oracle giving the outcome of each call.
-/

namespace ComicReader

/-! ## Geometry kernel: `src/unnamed/part_003` (box-math) -/

/-- `Box2D` from box-math: top-left-origin rectangle. -/
structure Box2D where
  x : ℚ
  y : ℚ
  width : ℚ
  height : ℚ
deriving DecidableEq, Repr

/-- `calculateIoU`: intersection over union of two boxes. -/
def calculateIoU (box1 box2 : Box2D) : ℚ :=
  let x1 := max box1.x box2.x
  let y1 := max box1.y box2.y
  let x2 := min (box1.x + box1.width) (box2.x + box2.width)
  let y2 := min (box1.y + box1.height) (box2.y + box2.height)
  if x2 < x1 ∨ y2 < y1 then 0
  else
    let intersection := (x2 - x1) * (y2 - y1)
    let area1 := box1.width * box1.height
    let area2 := box2.width * box2.height
    let union := area1 + area2 - intersection
    if union > 0 then intersection / union else 0

/-- `boxesAreSimilar`: all four normalized coordinate differences below
the tolerance. -/
def boxesAreSimilar (box1 box2 : Box2D) (tolerance : ℚ) : Bool :=
  let xDiff := |box1.x - box2.x| / max box1.width box2.width
  let yDiff := |box1.y - box2.y| / max box1.height box2.height
  let wDiff := |box1.width - box2.width| / max box1.width box2.width
  let hDiff := |box1.height - box2.height| / max box1.height box2.height
  decide (xDiff < tolerance ∧ yDiff < tolerance ∧ wDiff < tolerance ∧
    hDiff < tolerance)

/-- `boxesOverlap`: IoU strictly above the 10% threshold. -/
def boxesOverlap (box1 box2 : Box2D) : Bool :=
  decide (calculateIoU box1 box2 > 1 / 10)

/-- `isInside`: `innerBox` lies completely inside `outerBox`. -/
def isInside (innerBox outerBox : Box2D) : Bool :=
  let innerRight := innerBox.x + innerBox.width
  let innerBottom := innerBox.y + innerBox.height
  let outerRight := outerBox.x + outerBox.width
  let outerBottom := outerBox.y + outerBox.height
  decide (innerBox.x ≥ outerBox.x ∧ innerBox.y ≥ outerBox.y ∧
    innerRight ≤ outerRight ∧ innerBottom ≤ outerBottom)

/-! ## Detections: `src/unnamed/part_002` (roboflow) -/

/-- `RoboflowPrediction`: a detector box with confidence.  The optional
`class` field is named `cls` (`class` is a Lean keyword). -/
structure RoboflowPrediction extends Box2D where
  confidence : ℚ
  cls : Option String := none
deriving DecidableEq, Repr

/-- JavaScript `Array.prototype.find` returning the index of the first
element satisfying `p` (the source pairs `find` with `indexOf` on the
found element; since the array elements are distinct object references
produced by `map`, `indexOf` yields exactly the index of the first
match). -/
def jsFindIndex (p : α → Bool) : List α → Option Nat
  | [] => none
  | a :: as => if p a then some 0 else (jsFindIndex p as).map (· + 1)

/-- One iteration of the `spatialDeduplication` loop body: keep the
candidate if no kept detection is similar, replace the first similar
kept detection if the candidate has strictly higher confidence, else
discard the candidate. -/
def spatialStep (tolerance : ℚ) (unique : List RoboflowPrediction)
    (pred : RoboflowPrediction) : List RoboflowPrediction :=
  match jsFindIndex
      (fun existing => boxesAreSimilar pred.toBox2D existing.toBox2D tolerance)
      unique with
  | none => unique ++ [pred]
  | some i =>
    match unique.get? i with
    | none => unique
    | some duplicate =>
      if pred.confidence > duplicate.confidence then unique.set i pred
      else unique

/-- `spatialDeduplication`: skipped when the flag says so or the
tolerance is absent/zero (JavaScript `!tolerance`), else the linear
pass. -/
def spatialDeduplication (predictions : List RoboflowPrediction)
    (tolerance : Option ℚ) (shouldSkip : Bool) : List RoboflowPrediction :=
  if shouldSkip = true ∨ tolerance.getD 0 = 0 then predictions
  else predictions.foldl (spatialStep (tolerance.getD 0)) []

/-- `filterContainerBoxes`: discard every prediction that completely
contains another prediction at a different position (`bigBox ===
smallBox` in the source is reference equality, i.e. position identity
here). -/
def filterContainerBoxes (predictions : List RoboflowPrediction) :
    List RoboflowPrediction :=
  let indexed := predictions.enum
  (indexed.filter (fun big =>
    ! indexed.any (fun small =>
      decide (small.1 ≠ big.1) &&
        isInside small.2.toBox2D big.2.toBox2D))).map Prod.snd

/-! ## OCR stage: `src/scripts/utils/ocr.ts` -/

/-- The fields of an `OCRPrediction` other than `ocr_text`; this is the
rest-object `box` obtained by `const { ocr_text, ...box } = p` and
stored as `box_2d` of a Bubble. -/
structure OCRBox extends RoboflowPrediction where
  index : Nat
  cropPath : String := ""
deriving DecidableEq, Repr

/-- `OCRPrediction`: a detection with transcribed text. -/
structure OCRPrediction extends OCRBox where
  ocr_text : String
deriving DecidableEq, Repr

/-- JavaScript `s.includes(sub)`: `sub` occurs as a contiguous substring
of `s`. -/
def jsIncludes (s sub : String) : Bool :=
  decide (sub.data <:+: s.data)

/-- The ASCII word characters of the regex `\w` = `[A-Za-z0-9_]`. -/
def isWordChar (c : Char) : Bool :=
  c.isAlphanum || c = '_'

/-- JavaScript `s.trim()`: strip leading and trailing whitespace
(written over the character list so that it evaluates by reduction). -/
def jsTrim (s : String) : String :=
  ⟨((s.data.dropWhile Char.isWhitespace).reverse.dropWhile
      Char.isWhitespace).reverse⟩

/-- JavaScript `s.toUpperCase()` on ASCII text. -/
def jsToUpper (s : String) : String :=
  ⟨s.data.map Char.toUpper⟩

/-- The `normalize` closure of `textsAreSimilar`: trim, upper-case,
strip every non-word character (`.replace(/[^\w]/g, "")`). -/
def normalizeText (s : String) : String :=
  ⟨(jsToUpper (jsTrim s)).data.filter isWordChar⟩

/-- `textsAreSimilar`: normalized texts equal, or both nonempty and one
a substring of the other. -/
def textsAreSimilar (text1 text2 : String) : Bool :=
  let n1 := normalizeText text1
  let n2 := normalizeText text2
  if n1 = n2 then true
  else if n1.length > 0 && n2.length > 0 then
    jsIncludes n1 n2 || jsIncludes n2 n1
  else false

/-- The duplicate test of `deduplicateOCRPredictionsByText`: boxes
overlap and texts are similar. -/
def isTextDuplicate (pred p : OCRPrediction) : Bool :=
  boxesOverlap pred.toBox2D p.toBox2D &&
    textsAreSimilar pred.ocr_text p.ocr_text

/-- One iteration of the `deduplicateOCRPredictionsByText` loop body:
append the candidate when no kept prediction duplicates it; otherwise
replace the first duplicate when the candidate has better confidence or
larger area, else discard the candidate. -/
def textDedupStep (unique : List OCRPrediction) (pred : OCRPrediction) :
    List OCRPrediction :=
  match jsFindIndex (fun p => isTextDuplicate pred p) unique with
  | none => unique ++ [pred]
  | some i =>
    match unique.get? i with
    | none => unique
    | some duplicate =>
      let predArea := pred.width * pred.height
      let existingArea := duplicate.width * duplicate.height
      if pred.confidence > duplicate.confidence ∨ predArea > existingArea then
        unique.set i pred
      else unique

/-- `deduplicateOCRPredictionsByText`: the full linear pass. -/
def deduplicateOCRPredictionsByText (predictions : List OCRPrediction) :
    List OCRPrediction :=
  predictions.foldl textDedupStep []

/-! ## Context classifier: `src/scripts/utils/gemini-context.ts`

The Gemini network interaction of `analyzeContextGemini` is modelled by
the observable outcome of one call: the `generateContent` invocation
throws, the response carries no text, the extracted JSON fails to
parse, or a JSON object is parsed (fields absent or `null` are `none`).
-/

/-- Outcome of one classifier call against the model service. -/
inductive ModelOutcome where
  /-- `generateContent` rejected (network error). -/
  | networkError : ModelOutcome
  /-- `response.text` was empty/undefined (`throw "No text response"`). -/
  | noText : ModelOutcome
  /-- `JSON.parse` on the extracted JSON text threw. -/
  | unparseableJson : ModelOutcome
  /-- A JSON object was parsed; each field is `none` when absent or
  `null`, together with the scratchpad reasoning if present. -/
  | parsed (type speaker emotion characterType side voiceDescription
      textWithCues aiReasoning : Option String) : ModelOutcome
deriving DecidableEq, Repr

/-- The classification record returned by `analyzeContextGemini`. -/
structure GeminiContext where
  type : String
  speaker : Option String
  emotion : String
  characterType : Option String := none
  side : Option String := none
  voiceDescription : Option String := none
  textWithCues : Option String := none
  aiReasoning : Option String := none
deriving DecidableEq, Repr

/-- `analyzeContextGemini`: on a parsed object, default the missing
`type`/`speaker`/`emotion` fields; every failure path is caught and
yields the `{type: "SPEECH", speaker: null, emotion: "neutral"}`
default. -/
def analyzeContextGemini (outcome : ModelOutcome) : GeminiContext :=
  match outcome with
  | .parsed type speaker emotion characterType side voiceDescription
      textWithCues aiReasoning =>
    { type := type.getD "SPEECH"
      speaker := speaker
      emotion := emotion.getD "neutral"
      characterType := characterType
      side := side
      voiceDescription := voiceDescription
      textWithCues := textWithCues
      aiReasoning := aiReasoning }
  | _ => { type := "SPEECH", speaker := none, emotion := "neutral" }

/-- A finalized bubble (`Bubble` of gemini-context). -/
structure Bubble where
  id : String
  box_2d : OCRBox
  ocr_text : String
  type : String
  speaker : Option String
  emotion : String
  characterType : Option String := none
  side : Option String := none
  voiceDescription : Option String := none
  textWithCues : Option String := none
  aiReasoning : Option String := none
deriving DecidableEq, Repr

/-- An entry of the `skipped` list of `analyzeContext`. -/
structure SkippedEntry where
  text : String
  reason : String
deriving DecidableEq, Repr

/-- The mutable state of the `analyzeContext` loop: the bubbles and
skipped lists and the `uniqueCharacters` speaker roster (a JS `Set`,
i.e. an insertion-ordered list without duplicates). -/
structure CtxState where
  bubbles : List Bubble
  skipped : List SkippedEntry
  uniqueCharacters : List String
deriving DecidableEq, Repr

/-- `Set.prototype.add`: append if not already present. -/
def jsSetAdd (l : List String) (s : String) : List String :=
  if s ∈ l then l else l ++ [s]

/-- JavaScript `String(n)` for a natural number. -/
def jsString (n : Nat) : String := toString n

/-- JavaScript `s.padStart(n, c)`. -/
def jsPadStart (s : String) (n : Nat) (c : Char) : String :=
  if s.length ≥ n then s
  else ⟨List.replicate (n - s.length) c⟩ ++ s

/-- The bubble id `` `${pageName}_b${String(i + 1).padStart(2, "0")}` ``
generated for loop index `i`. -/
def bubbleId (pageName : String) (i : Nat) : String :=
  pageName ++ "_b" ++ jsPadStart (jsString (i + 1)) 2 '0'

/-- One iteration of the `analyzeContext` loop at index `i` on
prediction `p`: classify, divert SFX/BACKGROUND to `skipped`, force
Narrator/Neutral for NARRATION/CAPTION, record a truthy speaker in the
roster (`!!speaker` is false for `null` and for the empty string), and
emit the bubble. -/
def ctxStep (pageName : String) (outcomes : Nat → ModelOutcome)
    (st : CtxState) (i : Nat) (p : OCRPrediction) : CtxState :=
  let context := analyzeContextGemini (outcomes i)
  if context.type = "SFX" ∨ context.type = "BACKGROUND" then
    { st with
      skipped := st.skipped ++ [⟨p.ocr_text, "Type: " ++ context.type⟩] }
  else
    let speaker :=
      if context.type = "NARRATION" ∨ context.type = "CAPTION" then
        some "Narrator"
      else context.speaker
    let emotion :=
      if context.type = "NARRATION" ∨ context.type = "CAPTION" then
        "Neutral"
      else context.emotion
    let uniqueCharacters :=
      match speaker with
      | some s => if s = "" then st.uniqueCharacters
                  else jsSetAdd st.uniqueCharacters s
      | none => st.uniqueCharacters
    { bubbles := st.bubbles ++
        [{ id := bubbleId pageName i
           box_2d := p.toOCRBox
           ocr_text := p.ocr_text
           type := context.type
           speaker := speaker
           emotion := emotion
           characterType := context.characterType
           side := context.side
           voiceDescription := context.voiceDescription
           textWithCues := context.textWithCues
           aiReasoning := context.aiReasoning }]
      skipped := st.skipped
      uniqueCharacters := uniqueCharacters }

/-- The `for (let i = 0; ...)` loop of `analyzeContext`. -/
def ctxLoop (pageName : String) (outcomes : Nat → ModelOutcome) :
    Nat → List OCRPrediction → CtxState → CtxState
  | _, [], st => st
  | i, p :: rest, st =>
    ctxLoop pageName outcomes (i + 1) rest (ctxStep pageName outcomes st i p)

/-- `analyzeContext`: empty result under `--skip-gemini`, else the
sequential classification loop starting from empty bubbles, skipped and
roster (the roster is a local `Set`, created afresh for each page). -/
def analyzeContext (pageName : String) (ocrPredictions : List OCRPrediction)
    (outcomes : Nat → ModelOutcome) (skipGemini : Bool) : CtxState :=
  if skipGemini then ⟨[], [], []⟩
  else ctxLoop pageName outcomes 0 ocrPredictions ⟨[], [], []⟩

/-! ## Image cropping: `src/scripts/utils/image-crop.ts` -/

/-- `clampBoxToBounds`: clamp a box to the image bounds, flooring to
integer values (`Math.floor` yields an integer-valued number, modelled
as an integer cast back to `ℚ`). -/
def clampBoxToBounds (box : Box2D) (maxWidth maxHeight : ℚ) : Box2D :=
  let extractLeft : ℚ := ((⌊min box.x (maxWidth - 1)⌋ : ℤ) : ℚ)
  let extractTop : ℚ := ((⌊min box.y (maxHeight - 1)⌋ : ℤ) : ℚ)
  let extractWidth : ℚ := ((⌊min box.width (maxWidth - extractLeft)⌋ : ℤ) : ℚ)
  let extractHeight : ℚ :=
    ((⌊min box.height (maxHeight - extractTop)⌋ : ℤ) : ℚ)
  { x := max 0 extractLeft
    y := max 0 extractTop
    width := max 1 extractWidth
    height := max 1 extractHeight }

/-! ## Helper lemmas -/

theorem jsFindIndex_eq_none_iff (p : α → Bool) (l : List α) :
    jsFindIndex p l = none ↔ ∀ x ∈ l, p x = false := by
  induction l with
  | nil => simp [jsFindIndex]
  | cons a as ih =>
    by_cases hpa : p a <;> simp [jsFindIndex, hpa, ih]

theorem jsFindIndex_some (p : α → Bool) (l : List α) (i : Nat)
    (h : jsFindIndex p l = some i) :
    ∃ x, l.get? i = some x ∧ p x = true := by
  induction l generalizing i with
  | nil => simp [jsFindIndex] at h
  | cons a as ih =>
    by_cases hpa : p a
    · simp [jsFindIndex, hpa] at h
      exact ⟨a, by simp [← h], hpa⟩
    · simp [jsFindIndex, hpa] at h
      obtain ⟨j, hj, rfl⟩ := h
      obtain ⟨x, hx, hpx⟩ := ih j hj
      exact ⟨x, by simpa using hx, hpx⟩

theorem calculateIoU_comm (a b : Box2D) :
    calculateIoU a b = calculateIoU b a := by
  simp only [calculateIoU]
  rw [max_comm a.x b.x, max_comm a.y b.y,
    min_comm (a.x + a.width) (b.x + b.width),
    min_comm (a.y + a.height) (b.y + b.height),
    add_comm (a.width * a.height) (b.width * b.height)]

theorem boxesOverlap_comm (a b : Box2D) :
    boxesOverlap a b = boxesOverlap b a := by
  unfold boxesOverlap
  rw [calculateIoU_comm]

theorem jsIncludes_refl (s : String) : jsIncludes s s = true := by
  simp [jsIncludes]

theorem textsAreSimilar_comm (t1 t2 : String) :
    textsAreSimilar t1 t2 = textsAreSimilar t2 t1 := by
  unfold textsAreSimilar
  by_cases h : normalizeText t1 = normalizeText t2
  · simp [h]
  · have h' : ¬ normalizeText t2 = normalizeText t1 := fun hh => h hh.symm
    simp only [h, h', if_false]
    rw [Bool.and_comm, Bool.or_comm]

/-! ## Theorems settling the claims -/

/-- C1 (counterexample): two overlapping regions with identical text
`"HELLO"`; the already-kept one has confidence 9/10 and area 100, the
candidate has strictly lower confidence 4/10 but larger area 400.  The
claim says the kept region is retained regardless of areas, but text
deduplication replaces it with the lower-confidence candidate. -/
theorem textDedup_lower_confidence_candidate_wins_by_area :
    deduplicateOCRPredictionsByText
      [{ x := 0, y := 0, width := 10, height := 10, confidence := 9/10,
         index := 0, ocr_text := "HELLO" },
       { x := 0, y := 0, width := 20, height := 20, confidence := 4/10,
         index := 1, ocr_text := "HELLO" }] =
      [{ x := 0, y := 0, width := 20, height := 20, confidence := 4/10,
         index := 1, ocr_text := "HELLO" }] ∧
    (4 : ℚ)/10 < 9/10 := by
  constructor
  · decide
  · norm_num

/-- C1 (amended): on a duplicate, the candidate replaces the kept
region iff it has strictly higher confidence **or** strictly larger
area; the kept region is retained only when the candidate has neither
higher confidence nor larger area. -/
theorem textDedup_replace_iff_higher_confidence_or_larger_area
    (unique : List OCRPrediction) (pred duplicate : OCRPrediction) (i : Nat)
    (hfind : jsFindIndex (fun p => isTextDuplicate pred p) unique = some i)
    (hget : unique.get? i = some duplicate) :
    (pred.confidence > duplicate.confidence ∨
        pred.width * pred.height > duplicate.width * duplicate.height →
      textDedupStep unique pred = unique.set i pred) ∧
    (pred.confidence ≤ duplicate.confidence ∧
        pred.width * pred.height ≤ duplicate.width * duplicate.height →
      textDedupStep unique pred = unique) := by
  constructor
  · intro hrep
    unfold textDedupStep
    rw [hfind]
    dsimp only
    rw [hget]
    dsimp only
    rw [if_pos hrep]
  · intro ⟨hc, ha⟩
    unfold textDedupStep
    rw [hfind]
    dsimp only
    rw [hget]
    dsimp only
    rw [if_neg (by push_neg; exact ⟨hc, ha⟩)]

/-- C1 (witness for the amended theorem), at the concrete
counterexample input. -/
theorem textDedup_replace_iff_witness :
    textDedupStep
      [{ x := 0, y := 0, width := 10, height := 10, confidence := 9/10,
         index := 0, ocr_text := "HELLO" }]
      { x := 0, y := 0, width := 20, height := 20, confidence := 4/10,
        index := 1, ocr_text := "HELLO" } =
      [{ x := 0, y := 0, width := 20, height := 20, confidence := 4/10,
         index := 1, ocr_text := "HELLO" }] :=
  (textDedup_replace_iff_higher_confidence_or_larger_area
    [{ x := 0, y := 0, width := 10, height := 10, confidence := 9/10,
       index := 0, ocr_text := "HELLO" }]
    { x := 0, y := 0, width := 20, height := 20, confidence := 4/10,
      index := 1, ocr_text := "HELLO" }
    { x := 0, y := 0, width := 10, height := 10, confidence := 9/10,
      index := 0, ocr_text := "HELLO" }
    0 (by decide) (by decide)).1 (Or.inr (by norm_num))

theorem textDedupStep_length_of_found (unique : List OCRPrediction)
    (pred : OCRPrediction) (i : Nat)
    (h : jsFindIndex (fun p => isTextDuplicate pred p) unique = some i) :
    (textDedupStep unique pred).length = unique.length := by
  unfold textDedupStep
  rw [h]
  dsimp only
  cases hg : unique.get? i with
  | none => rfl
  | some duplicate =>
    dsimp only
    split
    · simp
    · rfl

/-- C6: a candidate collapses into an already-kept region (is not
appended as a new unique region) iff some kept region both overlaps it
(IoU above 0.1) and has similar normalized text; consequently two
non-overlapping regions both survive whatever their texts, and two
overlapping regions with dissimilar texts both survive. -/
theorem textDedup_collapse_iff_overlap_and_similar :
    (∀ (unique : List OCRPrediction) (pred : OCRPrediction),
      textDedupStep unique pred = unique ++ [pred] ↔
        ∀ p ∈ unique, ¬(boxesOverlap pred.toBox2D p.toBox2D = true ∧
          textsAreSimilar pred.ocr_text p.ocr_text = true)) ∧
    (∀ a b : OCRPrediction, boxesOverlap a.toBox2D b.toBox2D = false →
      deduplicateOCRPredictionsByText [a, b] = [a, b]) ∧
    (∀ a b : OCRPrediction, textsAreSimilar a.ocr_text b.ocr_text = false →
      deduplicateOCRPredictionsByText [a, b] = [a, b]) := by
  refine ⟨fun unique pred => ?_, fun a b h => ?_, fun a b h => ?_⟩
  · constructor
    · intro hstep p hp hdup
      have hne : jsFindIndex (fun q => isTextDuplicate pred q) unique ≠
          none := by
        intro hnone
        have hall : isTextDuplicate pred p = false :=
          (jsFindIndex_eq_none_iff _ _).mp hnone p hp
        simp [isTextDuplicate, hdup.1, hdup.2] at hall
      obtain ⟨i, hi⟩ := Option.ne_none_iff_exists'.mp hne
      have hlen := textDedupStep_length_of_found unique pred i hi
      rw [hstep] at hlen
      simp at hlen
    · intro hall
      have hnone : jsFindIndex (fun q => isTextDuplicate pred q) unique =
          none := by
        rw [jsFindIndex_eq_none_iff]
        intro x hx
        have hnd := hall x hx
        show isTextDuplicate pred x = false
        unfold isTextDuplicate
        cases hov : boxesOverlap pred.toBox2D x.toBox2D
        · simp
        · cases hts : textsAreSimilar pred.ocr_text x.ocr_text
          · simp
          · exact absurd ⟨hov, hts⟩ hnd
      unfold textDedupStep
      rw [hnone]
  · have h' : boxesOverlap b.toBox2D a.toBox2D = false := by
      rw [boxesOverlap_comm]; exact h
    simp [deduplicateOCRPredictionsByText, textDedupStep, jsFindIndex,
      isTextDuplicate, h']
  · have h' : textsAreSimilar b.ocr_text a.ocr_text = false := by
      rw [textsAreSimilar_comm]; exact h
    simp [deduplicateOCRPredictionsByText, textDedupStep, jsFindIndex,
      isTextDuplicate, h']

/-- C6 (witness): non-overlapping identical-text regions both survive,
and overlapping unrelated-text regions both survive, at concrete
inputs. -/
theorem textDedup_collapse_iff_witness :
    deduplicateOCRPredictionsByText
      [{ x := 0, y := 0, width := 10, height := 10, confidence := 1/2,
         index := 0, ocr_text := "HELLO" },
       { x := 500, y := 500, width := 10, height := 10, confidence := 1/2,
         index := 1, ocr_text := "HELLO" }] =
      [{ x := 0, y := 0, width := 10, height := 10, confidence := 1/2,
         index := 0, ocr_text := "HELLO" },
       { x := 500, y := 500, width := 10, height := 10, confidence := 1/2,
         index := 1, ocr_text := "HELLO" }] ∧
    deduplicateOCRPredictionsByText
      [{ x := 0, y := 0, width := 10, height := 10, confidence := 1/2,
         index := 0, ocr_text := "HELLO" },
       { x := 0, y := 0, width := 20, height := 20, confidence := 1/2,
         index := 1, ocr_text := "WORLD" }] =
      [{ x := 0, y := 0, width := 10, height := 10, confidence := 1/2,
         index := 0, ocr_text := "HELLO" },
       { x := 0, y := 0, width := 20, height := 20, confidence := 1/2,
         index := 1, ocr_text := "WORLD" }] :=
  ⟨textDedup_collapse_iff_overlap_and_similar.2.1 _ _ (by decide),
   textDedup_collapse_iff_overlap_and_similar.2.2 _ _ (by decide)⟩

/-- C9: with deduplication enabled and a positive tolerance the pass
runs; a candidate similar to an already-kept detection replaces it iff
its confidence is strictly higher and is discarded otherwise (ties keep
the earlier detection), a candidate similar to nothing is kept; and for
two detections with identical geometry and confidences 9/10 and 4/10,
in either input order, only the 9/10 one remains. -/
theorem spatialDedup_replace_only_on_higher_confidence :
    (∀ (predictions : List RoboflowPrediction) (tol : ℚ), 0 < tol →
      spatialDeduplication predictions (some tol) false =
        predictions.foldl (spatialStep tol) []) ∧
    (∀ (tol : ℚ) (unique : List RoboflowPrediction)
        (pred duplicate : RoboflowPrediction) (i : Nat),
      jsFindIndex
          (fun e => boxesAreSimilar pred.toBox2D e.toBox2D tol) unique =
        some i →
      unique.get? i = some duplicate →
      (pred.confidence > duplicate.confidence →
        spatialStep tol unique pred = unique.set i pred) ∧
      (pred.confidence ≤ duplicate.confidence →
        spatialStep tol unique pred = unique)) ∧
    (∀ (tol : ℚ) (unique : List RoboflowPrediction)
        (pred : RoboflowPrediction),
      jsFindIndex
          (fun e => boxesAreSimilar pred.toBox2D e.toBox2D tol) unique =
        none →
      spatialStep tol unique pred = unique ++ [pred]) ∧
    spatialDeduplication
      [{ x := 100, y := 200, width := 50, height := 60, confidence := 9/10 },
       { x := 100, y := 200, width := 50, height := 60, confidence := 4/10 }]
      (some (1/20)) false =
      [{ x := 100, y := 200, width := 50, height := 60,
         confidence := 9/10 }] ∧
    spatialDeduplication
      [{ x := 100, y := 200, width := 50, height := 60, confidence := 4/10 },
       { x := 100, y := 200, width := 50, height := 60, confidence := 9/10 }]
      (some (1/20)) false =
      [{ x := 100, y := 200, width := 50, height := 60,
         confidence := 9/10 }] := by
  refine ⟨fun predictions tol htol => ?_,
    fun tol unique pred duplicate i hfind hget => ⟨fun hc => ?_, fun hc => ?_⟩,
    fun tol unique pred hfind => ?_, by decide, by decide⟩
  · unfold spatialDeduplication
    rw [if_neg]
    simp only [Option.getD_some]
    push_neg
    exact ⟨fun hh => by simp at hh, ne_of_gt htol⟩
  · unfold spatialStep
    rw [hfind]
    dsimp only
    rw [hget]
    dsimp only
    rw [if_pos hc]
  · unfold spatialStep
    rw [hfind]
    dsimp only
    rw [hget]
    dsimp only
    rw [if_neg (not_lt.mpr hc)]
  · unfold spatialStep
    rw [hfind]

/-- C9 (witness): the enabling and replacement clauses applied at the
concrete 9/10-vs-4/10 input. -/
theorem spatialDedup_replace_witness :
    spatialDeduplication
      [{ x := 100, y := 200, width := 50, height := 60, confidence := 4/10 },
       { x := 100, y := 200, width := 50, height := 60, confidence := 9/10 }]
      (some (1/20)) false =
      [{ x := 100, y := 200, width := 50, height := 60, confidence := 4/10 },
       { x := 100, y := 200, width := 50, height := 60,
         confidence := 9/10 }].foldl (spatialStep (1/20)) [] ∧
    spatialStep (1/20)
      [{ x := 100, y := 200, width := 50, height := 60, confidence := 4/10 }]
      { x := 100, y := 200, width := 50, height := 60, confidence := 9/10 } =
      [{ x := 100, y := 200, width := 50, height := 60,
         confidence := 4/10 }].set 0
        { x := 100, y := 200, width := 50, height := 60,
          confidence := 9/10 } :=
  ⟨spatialDedup_replace_only_on_higher_confidence.1 _ _ (by norm_num),
   (spatialDedup_replace_only_on_higher_confidence.2.1 (1/20)
      [{ x := 100, y := 200, width := 50, height := 60, confidence := 4/10 }]
      { x := 100, y := 200, width := 50, height := 60, confidence := 9/10 }
      { x := 100, y := 200, width := 50, height := 60, confidence := 4/10 }
      0 (by decide) (by decide)).1 (by norm_num)⟩

theorem isInside_refl (b : Box2D) : isInside b b = true := by
  simp [isInside]

/-- C8: when one box strictly encloses another, the container filter
discards exactly the enclosing box and keeps the enclosed one; three
mutually non-containing boxes all survive; and a box containing two
children is discarded once and appears zero times in the output while
the children are unaffected. -/
theorem containerFilter_removes_exactly_containers :
    (∀ A B : RoboflowPrediction,
      isInside B.toBox2D A.toBox2D = true →
      isInside A.toBox2D B.toBox2D = false →
      filterContainerBoxes [A, B] = [B]) ∧
    (∀ A B C : RoboflowPrediction,
      isInside A.toBox2D B.toBox2D = false →
      isInside B.toBox2D A.toBox2D = false →
      isInside A.toBox2D C.toBox2D = false →
      isInside C.toBox2D A.toBox2D = false →
      isInside B.toBox2D C.toBox2D = false →
      isInside C.toBox2D B.toBox2D = false →
      filterContainerBoxes [A, B, C] = [A, B, C]) ∧
    (∀ A B C : RoboflowPrediction,
      isInside B.toBox2D A.toBox2D = true →
      isInside C.toBox2D A.toBox2D = true →
      isInside A.toBox2D B.toBox2D = false →
      isInside A.toBox2D C.toBox2D = false →
      isInside B.toBox2D C.toBox2D = false →
      isInside C.toBox2D B.toBox2D = false →
      filterContainerBoxes [A, B, C] = [B, C] ∧
        A ∉ filterContainerBoxes [A, B, C]) := by
  refine ⟨fun A B hBA hAB => ?_,
    fun A B C h1 h2 h3 h4 h5 h6 => ?_,
    fun A B C hBA hCA hAB hAC hBC hCB => ?_⟩
  · simp [filterContainerBoxes, List.enum, List.enumFrom, hBA, hAB]
  · simp [filterContainerBoxes, List.enum, List.enumFrom,
      h1, h2, h3, h4, h5, h6]
  · have hfil : filterContainerBoxes [A, B, C] = [B, C] := by
      simp [filterContainerBoxes, List.enum, List.enumFrom,
        hBA, hCA, hAB, hAC, hBC, hCB]
    refine ⟨hfil, ?_⟩
    have hANB : A ≠ B := by
      rintro rfl
      rw [isInside_refl] at hAB
      exact absurd hAB (by simp)
    have hANC : A ≠ C := by
      rintro rfl
      rw [isInside_refl] at hAC
      exact absurd hAC (by simp)
    rw [hfil]
    simp [hANB, hANC]

/-- C8 (witness): a 100×100 box containing a 20×20 and another 20×20
box is discarded once, at concrete inputs. -/
theorem containerFilter_witness :
    filterContainerBoxes
      [{ x := 0, y := 0, width := 100, height := 100, confidence := 1/2 },
       { x := 10, y := 10, width := 20, height := 20, confidence := 1/2 },
       { x := 50, y := 50, width := 20, height := 20, confidence := 1/2 }] =
      [{ x := 10, y := 10, width := 20, height := 20, confidence := 1/2 },
       { x := 50, y := 50, width := 20, height := 20, confidence := 1/2 }] ∧
    ({ x := 0, y := 0, width := 100, height := 100, confidence := 1/2 } :
        RoboflowPrediction) ∉
      filterContainerBoxes
        [{ x := 0, y := 0, width := 100, height := 100, confidence := 1/2 },
         { x := 10, y := 10, width := 20, height := 20, confidence := 1/2 },
         { x := 50, y := 50, width := 20, height := 20, confidence := 1/2 }] :=
  containerFilter_removes_exactly_containers.2.2 _ _ _
    (by decide) (by decide) (by decide) (by decide) (by decide) (by decide)

theorem ctxStep_bubbles_cases (pn : String) (oc : Nat → ModelOutcome)
    (st : CtxState) (i : Nat) (p : OCRPrediction) :
    (ctxStep pn oc st i p).bubbles = st.bubbles ∨
    ∃ b : Bubble, (ctxStep pn oc st i p).bubbles = st.bubbles ++ [b] ∧
      b.id = bubbleId pn i ∧
      b.type ≠ "SFX" ∧ b.type ≠ "BACKGROUND" ∧
      ((b.type = "NARRATION" ∨ b.type = "CAPTION") →
        b.speaker = some "Narrator" ∧ b.emotion = "Neutral") := by
  unfold ctxStep
  by_cases hskip : (analyzeContextGemini (oc i)).type = "SFX" ∨
      (analyzeContextGemini (oc i)).type = "BACKGROUND"
  · rw [if_pos hskip]
    exact Or.inl rfl
  · rw [if_neg hskip]
    push_neg at hskip
    refine Or.inr ⟨_, rfl, rfl, hskip.1, hskip.2, ?_⟩
    intro htype
    have hcond : (analyzeContextGemini (oc i)).type = "NARRATION" ∨
        (analyzeContextGemini (oc i)).type = "CAPTION" := htype
    constructor
    · show (if (analyzeContextGemini (oc i)).type = "NARRATION" ∨
          (analyzeContextGemini (oc i)).type = "CAPTION" then
            some "Narrator" else (analyzeContextGemini (oc i)).speaker) =
          some "Narrator"
      rw [if_pos hcond]
    · show (if (analyzeContextGemini (oc i)).type = "NARRATION" ∨
          (analyzeContextGemini (oc i)).type = "CAPTION" then
            "Neutral" else (analyzeContextGemini (oc i)).emotion) = "Neutral"
      rw [if_pos hcond]

theorem ctxLoop_bubbles_mem (pn : String) (oc : Nat → ModelOutcome)
    (l : List OCRPrediction) :
    ∀ (i : Nat) (st : CtxState) (b : Bubble),
      b ∈ (ctxLoop pn oc i l st).bubbles →
      b ∈ st.bubbles ∨ ∃ j, i ≤ j ∧ j < i + l.length ∧
        b.id = bubbleId pn j ∧ b.type ≠ "SFX" ∧ b.type ≠ "BACKGROUND" ∧
        ((b.type = "NARRATION" ∨ b.type = "CAPTION") →
          b.speaker = some "Narrator" ∧ b.emotion = "Neutral") := by
  induction l with
  | nil => exact fun i st b hb => Or.inl hb
  | cons p rest ih =>
    intro i st b hb
    rw [ctxLoop] at hb
    rcases ih (i + 1) (ctxStep pn oc st i p) b hb with
      hmem | ⟨j, hj1, hj2, hjrest⟩
    · rcases ctxStep_bubbles_cases pn oc st i p with
        hsame | ⟨b', heq, hid, hs, hbck, hforce⟩
      · rw [hsame] at hmem
        exact Or.inl hmem
      · rw [heq] at hmem
        rcases List.mem_append.mp hmem with h | h
        · exact Or.inl h
        · have hb' : b = b' := by simpa using h
          subst hb'
          exact Or.inr ⟨i, le_refl i, by simp, hid, hs, hbck, hforce⟩
    · exact Or.inr ⟨j, by omega, by simp only [List.length_cons]; omega,
        hjrest⟩

theorem analyzeContext_bubbles_mem (pn : String)
    (preds : List OCRPrediction) (oc : Nat → ModelOutcome) (sg : Bool)
    (b : Bubble) (hb : b ∈ (analyzeContext pn preds oc sg).bubbles) :
    ∃ j, j < preds.length ∧ b.id = bubbleId pn j ∧
      b.type ≠ "SFX" ∧ b.type ≠ "BACKGROUND" ∧
      ((b.type = "NARRATION" ∨ b.type = "CAPTION") →
        b.speaker = some "Narrator" ∧ b.emotion = "Neutral") := by
  unfold analyzeContext at hb
  split at hb
  · simp at hb
  · rcases ctxLoop_bubbles_mem pn oc preds 0 ⟨[], [], []⟩ b hb with
      h | ⟨j, _, hj2, hjrest⟩
    · simp at h
    · exact ⟨j, by simpa using hj2, hjrest⟩

/-- C2: every classifier failure (thrown network error, missing
response text, unparseable JSON) yields the default
`{type: "SPEECH", speaker: null, emotion: "neutral"}` classification,
and the region is still emitted as a SPEECH bubble with the skipped
list unchanged. -/
theorem classifier_failure_default_still_emitted (o : ModelOutcome)
    (ho : o = ModelOutcome.networkError ∨ o = ModelOutcome.noText ∨
      o = ModelOutcome.unparseableJson) :
    analyzeContextGemini o =
      { type := "SPEECH", speaker := none, emotion := "neutral" } ∧
    ∀ (pn : String) (oc : Nat → ModelOutcome) (st : CtxState) (i : Nat)
      (p : OCRPrediction), oc i = o →
      (ctxStep pn oc st i p).bubbles = st.bubbles ++
        [{ id := bubbleId pn i, box_2d := p.toOCRBox,
           ocr_text := p.ocr_text, type := "SPEECH", speaker := none,
           emotion := "neutral" }] ∧
      (ctxStep pn oc st i p).skipped = st.skipped := by
  have hg : analyzeContextGemini o =
      { type := "SPEECH", speaker := none, emotion := "neutral" } := by
    rcases ho with rfl | rfl | rfl <;> rfl
  refine ⟨hg, fun pn oc st i p hi => ?_⟩
  unfold ctxStep
  rw [hi, hg]
  constructor <;> simp

/-- C2 (witness): a thrown network error at a concrete region. -/
theorem classifier_failure_witness :
    (ctxStep "pg" (fun _ => ModelOutcome.networkError)
        ⟨[], [], []⟩ 0
        { x := 0, y := 0, width := 10, height := 10, confidence := 1/2,
          index := 0, ocr_text := "HI" }).bubbles =
      [{ id := bubbleId "pg" 0,
         box_2d := ({ x := 0, y := 0, width := 10, height := 10,
                      confidence := 1/2, index := 0 } : OCRBox),
         ocr_text := "HI", type := "SPEECH", speaker := none,
         emotion := "neutral" }] :=
  by simpa using
    ((classifier_failure_default_still_emitted ModelOutcome.networkError
      (Or.inl rfl)).2 "pg" (fun _ => ModelOutcome.networkError)
      ⟨[], [], []⟩ 0
      { x := 0, y := 0, width := 10, height := 10, confidence := 1/2,
        index := 0, ocr_text := "HI" } rfl).1

/-- C3: every bubble emitted by context analysis whose type is
NARRATION or CAPTION has speaker "Narrator" and emotion "Neutral". -/
theorem analyzeContext_narration_caption_forced (pn : String)
    (preds : List OCRPrediction) (oc : Nat → ModelOutcome) (sg : Bool)
    (b : Bubble) (hb : b ∈ (analyzeContext pn preds oc sg).bubbles)
    (ht : b.type = "NARRATION" ∨ b.type = "CAPTION") :
    b.speaker = some "Narrator" ∧ b.emotion = "Neutral" := by
  obtain ⟨j, _, _, _, _, hforce⟩ :=
    analyzeContext_bubbles_mem pn preds oc sg b hb
  exact hforce ht

/-- A sample transcribed region used to exercise the theorems on
concrete inputs. -/
def sampleOCR : OCRPrediction :=
  { x := 0, y := 0, width := 10, height := 10, confidence := 1/2,
    index := 0, ocr_text := "ONCE" }

/-- An oracle whose every call parses to a NARRATION classification
with a model-proposed speaker and emotion. -/
def narrOutcome : Nat → ModelOutcome := fun _ =>
  ModelOutcome.parsed (some "NARRATION") (some "Bob") (some "angry")
    none none none none none

/-- The bubble that `analyzeContext` emits for `sampleOCR` under
`narrOutcome`. -/
def narrBubble : Bubble :=
  { id := "pg_b01", box_2d := sampleOCR.toOCRBox, ocr_text := "ONCE",
    type := "NARRATION", speaker := some "Narrator", emotion := "Neutral" }

/-- C3 (witness): a NARRATION classification where the model proposed
speaker "Bob" and emotion "angry" still yields Narrator/Neutral. -/
theorem analyzeContext_narration_witness :
    narrBubble ∈
      (analyzeContext "pg" [sampleOCR] narrOutcome false).bubbles ∧
    narrBubble.speaker = some "Narrator" ∧ narrBubble.emotion = "Neutral" :=
  ⟨by decide,
   analyzeContext_narration_caption_forced "pg" [sampleOCR] narrOutcome
     false narrBubble (by decide) (Or.inl rfl)⟩

/-- C4: no bubble in a page's final list has type SFX or BACKGROUND;
a region classified SFX or BACKGROUND is recorded in the skipped list
with a reason naming its type, and the bubble list is unchanged. -/
theorem analyzeContext_skips_sfx_background :
    (∀ (pn : String) (preds : List OCRPrediction)
        (oc : Nat → ModelOutcome) (sg : Bool) (b : Bubble),
      b ∈ (analyzeContext pn preds oc sg).bubbles →
      b.type ≠ "SFX" ∧ b.type ≠ "BACKGROUND") ∧
    (∀ (pn : String) (oc : Nat → ModelOutcome) (st : CtxState) (i : Nat)
        (p : OCRPrediction),
      (analyzeContextGemini (oc i)).type = "SFX" ∨
        (analyzeContextGemini (oc i)).type = "BACKGROUND" →
      ctxStep pn oc st i p =
        { st with skipped := st.skipped ++
            [⟨p.ocr_text,
              "Type: " ++ (analyzeContextGemini (oc i)).type⟩] }) := by
  constructor
  · intro pn preds oc sg b hb
    obtain ⟨j, _, _, hs, hbck, _⟩ :=
      analyzeContext_bubbles_mem pn preds oc sg b hb
    exact ⟨hs, hbck⟩
  · intro pn oc st i p h
    unfold ctxStep
    rw [if_pos h]

/-- C4 (witness): a BOOM region classified SFX lands in the skipped
list and a surviving SPEECH bubble is not SFX. -/
theorem analyzeContext_skips_witness :
    ctxStep "pg" (fun _ => ModelOutcome.parsed (some "SFX") none none
        none none none none none) ⟨[], [], []⟩ 0
      { x := 0, y := 0, width := 10, height := 10, confidence := 1/2,
        index := 0, ocr_text := "BOOM" } =
      { bubbles := [], skipped := [⟨"BOOM", "Type: SFX"⟩],
        uniqueCharacters := [] } :=
  by simpa using
    analyzeContext_skips_sfx_background.2 "pg"
      (fun _ => ModelOutcome.parsed (some "SFX") none none none none none
        none none) ⟨[], [], []⟩ 0
      { x := 0, y := 0, width := 10, height := 10, confidence := 1/2,
        index := 0, ocr_text := "BOOM" } (Or.inl rfl)

/-- C5 (counterexample): a page with two regions whose first region is
classified SFX (skipped).  The single surviving bubble — the first of
the final list — carries id `"page-01_b02"`, not `"page-01_b01"`: ids
are numbered by input position, so skipping leaves a gap. -/
theorem bubbleIds_gap_counterexample :
    (analyzeContext "page-01"
      [{ x := 0, y := 0, width := 10, height := 10, confidence := 1/2,
         index := 0, ocr_text := "BOOM" },
       { x := 50, y := 0, width := 10, height := 10, confidence := 1/2,
         index := 1, ocr_text := "HI" }]
      (fun i => if i = 0 then
          ModelOutcome.parsed (some "SFX") none none none none none none
            none
        else
          ModelOutcome.parsed (some "SPEECH") (some "Bob") (some "angry")
            none none none none none)
      false).bubbles.map Bubble.id = ["page-01_b02"] ∧
    "page-01_b02" ≠ "page-01_b01" := by
  constructor
  · decide
  · decide

/-- C5 (amended): each emitted bubble's id is
`"{pageName}_b{i+1:02d}"` where `i` is the region's 0-based position in
the page's input list (and `i < preds.length`); because skipped regions
still consume their input position, the surviving ids may have gaps, so
the k-th bubble of the final list need not be numbered `k`. -/
theorem bubbleIds_follow_input_position :
    (∀ (pn : String) (preds : List OCRPrediction)
        (oc : Nat → ModelOutcome) (sg : Bool) (b : Bubble),
      b ∈ (analyzeContext pn preds oc sg).bubbles →
      ∃ j, j < preds.length ∧ b.id = bubbleId pn j) ∧
    (∀ (pn : String) (oc : Nat → ModelOutcome) (st : CtxState) (i : Nat)
        (p : OCRPrediction),
      ¬((analyzeContextGemini (oc i)).type = "SFX" ∨
        (analyzeContextGemini (oc i)).type = "BACKGROUND") →
      ∃ b, (ctxStep pn oc st i p).bubbles = st.bubbles ++ [b] ∧
        b.id = bubbleId pn i) := by
  constructor
  · intro pn preds oc sg b hb
    obtain ⟨j, hj, hid, _⟩ := analyzeContext_bubbles_mem pn preds oc sg b hb
    exact ⟨j, hj, hid⟩
  · intro pn oc st i p h
    unfold ctxStep
    rw [if_neg h]
    exact ⟨_, rfl, rfl⟩

/-- C5 (witness for the amended theorem): the surviving bubble of the
gap scenario carries the id of its input position (index 1, id b02). -/
theorem bubbleIds_follow_input_position_witness :
    ∃ j, j < 2 ∧
      ({ id := "page-01_b02",
         box_2d := ({ x := 50, y := 0, width := 10, height := 10,
                      confidence := 1/2, index := 1 } : OCRBox),
         ocr_text := "HI", type := "SPEECH", speaker := some "Bob",
         emotion := "angry" } : Bubble).id = bubbleId "page-01" j :=
  bubbleIds_follow_input_position.1 "page-01"
    [{ x := 0, y := 0, width := 10, height := 10, confidence := 1/2,
       index := 0, ocr_text := "BOOM" },
     { x := 50, y := 0, width := 10, height := 10, confidence := 1/2,
       index := 1, ocr_text := "HI" }]
    (fun i => if i = 0 then
        ModelOutcome.parsed (some "SFX") none none none none none none none
      else
        ModelOutcome.parsed (some "SPEECH") (some "Bob") (some "angry")
          none none none none none)
    false _ (by decide)

/-- C7 (counterexample): a single NARRATION classification *does* add a
name to the roster — the forced speaker "Narrator" is truthy, so the
roster after the region is `["Narrator"]`, not `[]`. -/
theorem roster_narration_adds_narrator :
    (analyzeContext "pg" [sampleOCR] narrOutcome false).uniqueCharacters =
      ["Narrator"] := by decide

/-- C7 (amended): the roster update of one region is characterized as
follows — SFX/BACKGROUND regions never touch the roster; NARRATION and
CAPTION regions add the forced name "Narrator"; otherwise the model's
speaker is added exactly when it is non-null and non-empty.  Moreover
the roster is local to one `analyzeContext` call: every page starts
from the empty roster, so it does not grow across pages. -/
theorem roster_update_characterization :
    (∀ (pn : String) (oc : Nat → ModelOutcome) (st : CtxState) (i : Nat)
        (p : OCRPrediction),
      ((analyzeContextGemini (oc i)).type = "SFX" ∨
          (analyzeContextGemini (oc i)).type = "BACKGROUND" →
        (ctxStep pn oc st i p).uniqueCharacters = st.uniqueCharacters) ∧
      ((analyzeContextGemini (oc i)).type = "NARRATION" ∨
          (analyzeContextGemini (oc i)).type = "CAPTION" →
        (ctxStep pn oc st i p).uniqueCharacters =
          jsSetAdd st.uniqueCharacters "Narrator") ∧
      (¬((analyzeContextGemini (oc i)).type = "SFX" ∨
          (analyzeContextGemini (oc i)).type = "BACKGROUND" ∨
          (analyzeContextGemini (oc i)).type = "NARRATION" ∨
          (analyzeContextGemini (oc i)).type = "CAPTION") →
        ((analyzeContextGemini (oc i)).speaker = none →
          (ctxStep pn oc st i p).uniqueCharacters = st.uniqueCharacters) ∧
        (∀ s, (analyzeContextGemini (oc i)).speaker = some s → s ≠ "" →
          (ctxStep pn oc st i p).uniqueCharacters =
            jsSetAdd st.uniqueCharacters s) ∧
        ((analyzeContextGemini (oc i)).speaker = some "" →
          (ctxStep pn oc st i p).uniqueCharacters =
            st.uniqueCharacters))) ∧
    (∀ (pn : String) (preds : List OCRPrediction)
        (oc : Nat → ModelOutcome),
      analyzeContext pn preds oc false =
        ctxLoop pn oc 0 preds ⟨[], [], []⟩) := by
  refine ⟨fun pn oc st i p => ⟨fun hskip => ?_, fun hnc => ?_,
    fun hother => ⟨fun hnone => ?_, fun s hs hne => ?_, fun hemp => ?_⟩⟩,
    fun pn preds oc => rfl⟩
  · unfold ctxStep
    rw [if_pos hskip]
  · have hns : ¬((analyzeContextGemini (oc i)).type = "SFX" ∨
        (analyzeContextGemini (oc i)).type = "BACKGROUND") := by
      rcases hnc with h | h <;> rw [h] <;> decide
    unfold ctxStep
    rw [if_neg hns]
    show (match (if (analyzeContextGemini (oc i)).type = "NARRATION" ∨
        (analyzeContextGemini (oc i)).type = "CAPTION" then
          some "Narrator" else (analyzeContextGemini (oc i)).speaker) with
      | some s => if s = "" then st.uniqueCharacters
                  else jsSetAdd st.uniqueCharacters s
      | none => st.uniqueCharacters) = jsSetAdd st.uniqueCharacters
        "Narrator"
    rw [if_pos hnc]
    dsimp only
    rw [if_neg (by decide)]
  · push_neg at hother
    unfold ctxStep
    rw [if_neg (by tauto)]
    show (match (if (analyzeContextGemini (oc i)).type = "NARRATION" ∨
        (analyzeContextGemini (oc i)).type = "CAPTION" then
          some "Narrator" else (analyzeContextGemini (oc i)).speaker) with
      | some s => if s = "" then st.uniqueCharacters
                  else jsSetAdd st.uniqueCharacters s
      | none => st.uniqueCharacters) = st.uniqueCharacters
    rw [if_neg (by tauto), hnone]
  · push_neg at hother
    unfold ctxStep
    rw [if_neg (by tauto)]
    show (match (if (analyzeContextGemini (oc i)).type = "NARRATION" ∨
        (analyzeContextGemini (oc i)).type = "CAPTION" then
          some "Narrator" else (analyzeContextGemini (oc i)).speaker) with
      | some s => if s = "" then st.uniqueCharacters
                  else jsSetAdd st.uniqueCharacters s
      | none => st.uniqueCharacters) = jsSetAdd st.uniqueCharacters s
    rw [if_neg (by tauto), hs]
    dsimp only
    rw [if_neg hne]
  · push_neg at hother
    unfold ctxStep
    rw [if_neg (by tauto)]
    show (match (if (analyzeContextGemini (oc i)).type = "NARRATION" ∨
        (analyzeContextGemini (oc i)).type = "CAPTION" then
          some "Narrator" else (analyzeContextGemini (oc i)).speaker) with
      | some s => if s = "" then st.uniqueCharacters
                  else jsSetAdd st.uniqueCharacters s
      | none => st.uniqueCharacters) = st.uniqueCharacters
    rw [if_neg (by tauto), hemp]
    dsimp only
    rw [if_pos rfl]

/-- C7 (witness for the amended theorem): NARRATION adds "Narrator" to
the roster at a concrete region, and a SPEECH speaker "Bob" is added. -/
theorem roster_update_witness :
    (ctxStep "pg" narrOutcome ⟨[], [], []⟩ 0 sampleOCR).uniqueCharacters =
      jsSetAdd [] "Narrator" ∧
    (ctxStep "pg"
        (fun _ => ModelOutcome.parsed (some "SPEECH") (some "Bob") none
          none none none none none)
        ⟨[], [], []⟩ 0 sampleOCR).uniqueCharacters = jsSetAdd [] "Bob" :=
  ⟨((roster_update_characterization.1 "pg" narrOutcome ⟨[], [], []⟩ 0
      sampleOCR).2.1) (Or.inl (by decide)),
   (((roster_update_characterization.1 "pg"
      (fun _ => ModelOutcome.parsed (some "SPEECH") (some "Bob") none
        none none none none none)
      ⟨[], [], []⟩ 0 sampleOCR).2.2) (by decide)).2.1 "Bob" rfl
     (by decide)⟩

theorem clamp_axis (pos dim : ℚ) (m : ℤ) (hpos : 0 ≤ pos) (hm : 1 ≤ m) :
    0 ≤ max 0 ((⌊min pos ((m : ℚ) - 1)⌋ : ℤ) : ℚ) ∧
    1 ≤ max 1 ((⌊min dim ((m : ℚ) -
      ((⌊min pos ((m : ℚ) - 1)⌋ : ℤ) : ℚ))⌋ : ℤ) : ℚ) ∧
    max 0 ((⌊min pos ((m : ℚ) - 1)⌋ : ℤ) : ℚ) +
      max 1 ((⌊min dim ((m : ℚ) -
        ((⌊min pos ((m : ℚ) - 1)⌋ : ℤ) : ℚ))⌋ : ℤ) : ℚ) ≤ (m : ℚ) := by
  set eL : ℤ := ⌊min pos ((m : ℚ) - 1)⌋ with heL
  set eW : ℤ := ⌊min dim ((m : ℚ) - (eL : ℚ))⌋ with heW
  have h1 : 0 ≤ eL := by
    rw [heL]
    apply Int.le_floor.mpr
    push_cast
    apply le_min hpos
    have hm' : (1 : ℚ) ≤ (m : ℚ) := by exact_mod_cast hm
    linarith
  have h2 : eL ≤ m - 1 := by
    have hf : eL ≤ ⌊(m : ℚ) - 1⌋ := Int.floor_le_floor (min_le_right _ _)
    rwa [show (m : ℚ) - 1 = ((m - 1 : ℤ) : ℚ) by push_cast; ring,
      Int.floor_intCast] at hf
  have h3 : eW ≤ m - eL := by
    have hf : eW ≤ ⌊(m : ℚ) - (eL : ℚ)⌋ :=
      Int.floor_le_floor (min_le_right _ _)
    rwa [show (m : ℚ) - (eL : ℚ) = ((m - eL : ℤ) : ℚ) by push_cast; ring,
      Int.floor_intCast] at hf
  refine ⟨le_max_left _ _, le_max_left _ _, ?_⟩
  have hmax0 : max (0 : ℚ) (eL : ℚ) = (eL : ℚ) :=
    max_eq_right (by exact_mod_cast h1)
  have hw : max (1 : ℚ) ((eW : ℤ) : ℚ) ≤ ((m - eL : ℤ) : ℚ) := by
    apply max_le
    · have : (1 : ℤ) ≤ m - eL := by omega
      exact_mod_cast this
    · exact_mod_cast h3
  rw [hmax0]
  have : ((m - eL : ℤ) : ℚ) = (m : ℚ) - (eL : ℚ) := by push_cast; ring
  linarith [hw, this ▸ hw]

/-- C10: for a box with non-negative position and an image of integer
dimensions at least 1×1, `clampBoxToBounds` yields integer-valued
fields with non-negative position, dimensions at least 1, and the box
contained in the image (crop safety: never a zero-area or out-of-bounds
extraction). -/
theorem clampBoxToBounds_safe (box : Box2D) (mw mh : ℤ)
    (hmw : 1 ≤ mw) (hmh : 1 ≤ mh) (hx : 0 ≤ box.x) (hy : 0 ≤ box.y) :
    ∀ r : Box2D, r = clampBoxToBounds box (mw : ℚ) (mh : ℚ) →
      (∃ a : ℤ, r.x = (a : ℚ)) ∧ (∃ a : ℤ, r.y = (a : ℚ)) ∧
      (∃ a : ℤ, r.width = (a : ℚ)) ∧ (∃ a : ℤ, r.height = (a : ℚ)) ∧
      0 ≤ r.x ∧ 0 ≤ r.y ∧ 1 ≤ r.width ∧ 1 ≤ r.height ∧
      r.x + r.width ≤ (mw : ℚ) ∧ r.y + r.height ≤ (mh : ℚ) := by
  intro r hr
  subst hr
  obtain ⟨hx0, hw1, hxw⟩ := clamp_axis box.x box.width mw hx hmw
  obtain ⟨hy0, hh1, hyh⟩ := clamp_axis box.y box.height mh hy hmh
  simp only [clampBoxToBounds]
  refine ⟨⟨max 0 ⌊min box.x ((mw : ℚ) - 1)⌋, by push_cast; ring⟩,
    ⟨max 0 ⌊min box.y ((mh : ℚ) - 1)⌋, by push_cast; ring⟩,
    ⟨max 1 ⌊min box.width ((mw : ℚ) -
      ((⌊min box.x ((mw : ℚ) - 1)⌋ : ℤ) : ℚ))⌋, by push_cast; ring⟩,
    ⟨max 1 ⌊min box.height ((mh : ℚ) -
      ((⌊min box.y ((mh : ℚ) - 1)⌋ : ℤ) : ℚ))⌋, by push_cast; ring⟩,
    hx0, hy0, hw1, hh1, hxw, hyh⟩

/-- C10 (witness): a fractional, oversized box against a 100×50 image
clamps to the in-bounds integer box (2, 3, 98, 1). -/
theorem clampBoxToBounds_safe_witness :
    clampBoxToBounds ⟨5/2, 3, 1000, 1/3⟩ ((100 : ℤ) : ℚ) ((50 : ℤ) : ℚ) =
        ⟨2, 3, 98, 1⟩ ∧
    (0 ≤ (clampBoxToBounds ⟨5/2, 3, 1000, 1/3⟩ ((100 : ℤ) : ℚ)
      ((50 : ℤ) : ℚ)).x ∧
     1 ≤ (clampBoxToBounds ⟨5/2, 3, 1000, 1/3⟩ ((100 : ℤ) : ℚ)
      ((50 : ℤ) : ℚ)).width ∧
     (clampBoxToBounds ⟨5/2, 3, 1000, 1/3⟩ ((100 : ℤ) : ℚ)
        ((50 : ℤ) : ℚ)).x +
      (clampBoxToBounds ⟨5/2, 3, 1000, 1/3⟩ ((100 : ℤ) : ℚ)
        ((50 : ℤ) : ℚ)).width ≤ ((100 : ℤ) : ℚ)) :=
  ⟨by decide,
   (fun h => ⟨h.2.2.2.2.1, h.2.2.2.2.2.2.1, h.2.2.2.2.2.2.2.2.1⟩)
     (clampBoxToBounds_safe ⟨5/2, 3, 1000, 1/3⟩ 100 50 (by norm_num)
       (by norm_num) (by norm_num) (by norm_num)
       (clampBoxToBounds ⟨5/2, 3, 1000, 1/3⟩ ((100 : ℤ) : ℚ)
         ((50 : ℤ) : ℚ)) rfl)⟩

end ComicReader
